import Mathlib

/-!
Verification of the animation/physics core of the `mihyun_portfoilo`
single-page portfolio site.

The embedding models the numeric animation state (`AnimationState`) and the
operations that mutate it — `calculateLayout`, `handleWheel`, and the per-tick
body of `animate` — together with the `lerp` primitive, the zoom formula, the
progress-bar thumb computation, the smoothed cursor, and the one-shot `Reveal`
component's visibility state machine.

JavaScript numbers are modelled as rationals (`ℚ`): every constant appearing
in the source (`0.05`, `0.001`, `0.1`, `0.25`, `0.5`, `1.5`, `0.15`, `224`)
is exactly representable, and all the operations involved (+, -, *, /, min,
max, abs) are exact on the inputs considered.
-/

namespace Portfolio

/-- Linear interpolation `lerp`, from the source
`const lerp = (start, end, factor) => start + (end - start) * factor`. -/
def lerp (start finish factor : ℚ) : ℚ :=
  start + (finish - start) * factor

/-- The mutable animation state record
`{ currentX, targetX, maxScroll, skew }` held in `state.current`. -/
structure AnimationState where
  currentX : ℚ
  targetX : ℚ
  maxScroll : ℚ
  skew : ℚ
  deriving Repr, DecidableEq

/-- Layout measurement `calculateLayout` (with the container ref attached): reads the content
container's `scrollWidth` and the viewport's `innerWidth` and sets
`state.current.maxScroll = totalContainerWidth - viewportWidth`.
Note: the source performs NO clamping of this difference. -/
def calculateLayout (s : AnimationState) (scrollWidth viewportWidth : ℚ) :
    AnimationState :=
  { s with maxScroll := scrollWidth - viewportWidth }

/-- Wheel handler `handleWheel`: `targetX += e.deltaY` followed by
`targetX = Math.max(0, Math.min(targetX, maxScroll))`. -/
def handleWheel (s : AnimationState) (deltaY : ℚ) : AnimationState :=
  { s with targetX := max 0 (min (s.targetX + deltaY) s.maxScroll) }

/-- Clamp as the spec writes it: `clamp(x, lo, hi) = max(lo, min(x, hi))`.
Stated from the spec's words, for comparison against `handleWheel`. -/
def clamp (x lo hi : ℚ) : ℚ :=
  max lo (min x hi)

/-- The state-mutating part of one `animate` tick:
`currentX = lerp(currentX, targetX, 0.05)`, then (reading the UPDATED
`currentX`) `velocity = targetX - currentX`, `targetSkew = velocity * 0.001`,
`skew = lerp(skew, targetSkew, 0.1)`. `targetX` and `maxScroll` are only
read, never written, by the tick. -/
def animateTick (s : AnimationState) : AnimationState :=
  let currentX := lerp s.currentX s.targetX 0.05
  let velocity := s.targetX - currentX
  let targetSkew := velocity * 0.001
  let skew := lerp s.skew targetSkew 0.1
  { s with currentX := currentX, skew := skew }

/-- The zoom computation of each tick:
`zoomProgress = Math.min(Math.abs(currentX) / (window.innerWidth * 0.25), 1)`;
`zoomLevel = 1.5 - zoomProgress * 0.5`. -/
def zoomLevel (currentX viewportWidth : ℚ) : ℚ :=
  let zoomProgress := min (|currentX| / (viewportWidth * 0.25)) 1
  1.5 - zoomProgress * 0.5

/-- The progress-bar thumb update of each tick. The source guards with
`state.current.maxScroll > 0`; when the guard holds it computes
`scrollPercentage = Math.min(Math.max(currentX / maxScroll, 0), 1)` and
`thumbPos = scrollPercentage * 224`. `none` models the skipped update. -/
def progressThumb (currentX maxScroll : ℚ) : Option ℚ :=
  if 0 < maxScroll then
    some (min (max (currentX / maxScroll) 0) 1 * 224)
  else
    none

/-- One step of the smoothed cursor on each tick:
`cursor.current.x = lerp(cursor.current.x, mouse.current.x, 0.15)`. -/
def cursorStep (cursorX rawMouseX : ℚ) : ℚ :=
  lerp cursorX rawMouseX 0.15

/-- The cursor x-coordinate after `n` ticks with a constant raw target. -/
def cursorIter (cursorX rawMouseX : ℚ) : ℕ → ℚ
  | 0 => cursorX
  | n + 1 => cursorStep (cursorIter cursorX rawMouseX n) rawMouseX

/-- Iterated scroll easing: `currentX` under repeated ticks toward a fixed target with a fixed
factor: `scrollIter c t f n` is the value after `n` applications of
`x ↦ lerp x t f` starting at `c`. -/
def scrollIter (c t f : ℚ) : ℕ → ℚ
  | 0 => c
  | n + 1 => lerp (scrollIter c t f n) t f

/-- The `Reveal` component's state: its `isVisible` flag plus whether its
IntersectionObserver is still connected. -/
structure RevealState where
  isVisible : Bool
  observing : Bool
  deriving Repr, DecidableEq

/-- On mount, `isVisible` is `false` and the observer is connected. -/
def revealInit : RevealState :=
  { isVisible := false, observing := true }

/-- One delivery of an intersection sample of ratio `ratio` to the `Reveal`
component whose observer was configured with `threshold`. The
IntersectionObserver is an external collaborator: per its contract, with a
single configured threshold it delivers an entry with `isIntersecting` true
exactly when the observed ratio has reached the threshold. The callback
(source: `if (entry.isIntersecting) { setIsVisible(true); observer.disconnect(); }`)
then sets the flag and disconnects; a disconnected observer delivers nothing,
so the state is unchanged. -/
def revealStep (threshold : ℚ) (s : RevealState) (ratio : ℚ) : RevealState :=
  if s.observing && decide (threshold ≤ ratio) then
    { isVisible := true, observing := false }
  else
    s

/-- The `Reveal` state after a sequence of intersection ratio samples. -/
def revealRun (threshold : ℚ) (s : RevealState) (ratios : List ℚ) : RevealState :=
  ratios.foldl (revealStep threshold) s

/-- The invariant claimed in the spec for the scroll state:
`0 <= targetScrollX <= maxScroll` and `maxScroll >= 0`. -/
def scrollInv (s : AnimationState) : Prop :=
  0 ≤ s.targetX ∧ s.targetX ≤ s.maxScroll ∧ 0 ≤ s.maxScroll

instance (s : AnimationState) : Decidable (scrollInv s) := by
  unfold scrollInv; infer_instance

/- ### Helper lemmas -/

/-- Closed form for repeated lerp toward a fixed target: the remaining
distance is multiplied by `1 - f` each tick. -/
theorem scrollIter_sub (c t f : ℚ) (n : ℕ) :
    t - scrollIter c t f n = (t - c) * (1 - f) ^ n := by
  induction n with
  | zero => simp [scrollIter]
  | succ n ih =>
    have : t - scrollIter c t f (n + 1) = (t - scrollIter c t f n) * (1 - f) := by
      simp only [scrollIter, lerp]; ring
    rw [this, ih, pow_succ]; ring

/-- The cursor iteration is the generic lerp iteration at factor `0.15`. -/
theorem cursorIter_eq (c r : ℚ) (n : ℕ) :
    cursorIter c r n = scrollIter c r 0.15 n := by
  induction n with
  | zero => rfl
  | succ n ih => simp [cursorIter, scrollIter, cursorStep, ih]

/- ### Claim theorems -/

/-- C1 (counterexample): the layout measurement does NOT clamp `maxScroll`
to zero. With content width `100` and viewport width `200`, `calculateLayout`
sets `maxScroll` to `-100`, which differs from the claimed
`max(0, contentWidth - viewportWidth) = 0`. -/
theorem C1_layout_counterexample :
    (calculateLayout ⟨0, 0, 0, 0⟩ 100 200).maxScroll = -100
    ∧ (calculateLayout ⟨0, 0, 0, 0⟩ 100 200).maxScroll ≠ max 0 (100 - 200) := by
  constructor
  · norm_num [calculateLayout]
  · norm_num [calculateLayout]

/-- C1 (amended): whenever the layout measurement runs, it sets `maxScroll`
to `contentWidth - viewportWidth` with no clamping; in particular, for every
measurement where the content width is less than the viewport width, the
resulting `maxScroll` is negative. -/
theorem C1_layout_sets_maxScroll (s : AnimationState) (cw vw : ℚ) :
    (calculateLayout s cw vw).maxScroll = cw - vw
    ∧ (cw < vw → (calculateLayout s cw vw).maxScroll < 0) := by
  refine ⟨rfl, fun h => ?_⟩
  show cw - vw < 0
  linarith

/-- C1 (witness): the amended theorem applied at content width `100`,
viewport width `200`. -/
theorem C1_layout_witness :
    (100 : ℚ) < 200 ∧ (calculateLayout ⟨0, 0, 0, 0⟩ 100 200).maxScroll < 0 :=
  ⟨by norm_num,
   (C1_layout_sets_maxScroll ⟨0, 0, 0, 0⟩ 100 200).2 (by norm_num)⟩

/-- C2 (counterexample): the invariant `0 ≤ targetX ≤ maxScroll ∧ 0 ≤ maxScroll`
is NOT preserved by layout remeasurement: from the state
`⟨0, 500, 500, 0⟩`, which satisfies it, remeasuring with content width `800`
and viewport width `500` sets `maxScroll = 300 < targetX = 500`. -/
theorem C2_inv_counterexample :
    scrollInv ⟨0, 500, 500, 0⟩
    ∧ ¬ scrollInv (calculateLayout ⟨0, 500, 500, 0⟩ 800 500) := by
  constructor
  · refine ⟨by norm_num, by norm_num, by norm_num⟩
  · intro h
    have h2 := h.2.1
    rw [show (calculateLayout ⟨0, 500, 500, 0⟩ 800 500).maxScroll = 300 by
      norm_num [calculateLayout]] at h2
    have : (⟨0, 500, 500, 0⟩ : AnimationState).targetX = 500 := rfl
    rw [show (calculateLayout ⟨0, 500, 500, 0⟩ 800 500).targetX = 500 from rfl] at h2
    norm_num at h2

/-- C2 (amended): wheel handling establishes the invariant
`0 ≤ targetX ≤ maxScroll ∧ 0 ≤ maxScroll` whenever `maxScroll` is
nonnegative, and every animation tick preserves it (the tick writes only
`currentX` and `skew`); layout remeasurement, however, does not preserve it
(see the counterexample), since it rewrites `maxScroll` without re-clamping
`targetX` and without clamping the new bound to zero. -/
theorem C2_inv_preservation :
    (∀ (s : AnimationState) (d : ℚ), 0 ≤ s.maxScroll →
        scrollInv (handleWheel s d))
    ∧ (∀ s : AnimationState, scrollInv s → scrollInv (animateTick s)) := by
  constructor
  · intro s d h
    refine ⟨le_max_left 0 _, ?_, h⟩
    show max 0 (min (s.targetX + d) s.maxScroll) ≤ s.maxScroll
    exact max_le h (min_le_right _ _)
  · intro s h
    exact h

/-- C2 (witness): the amended theorem applied at a concrete state with
`maxScroll = 500` and wheel delta `100`, and at a concrete tick. -/
theorem C2_inv_witness :
    ((0 : ℚ) ≤ (⟨0, 0, 500, 0⟩ : AnimationState).maxScroll
      ∧ scrollInv (handleWheel ⟨0, 0, 500, 0⟩ 100))
    ∧ (scrollInv ⟨0, 100, 500, 0⟩ ∧ scrollInv (animateTick ⟨0, 100, 500, 0⟩)) :=
  ⟨⟨by norm_num, C2_inv_preservation.1 ⟨0, 0, 500, 0⟩ 100 (by norm_num)⟩,
   ⟨⟨by norm_num, by norm_num, by norm_num⟩,
    C2_inv_preservation.2 ⟨0, 100, 500, 0⟩ ⟨by norm_num, by norm_num, by norm_num⟩⟩⟩

/-- C3: every wheel event with vertical delta `d` sets `targetX` to
`clamp(previous + d, 0, maxScroll)`; with `maxScroll = 500` and initial
target `0`, the delta sequence `[100, 600, -50]` produces the target path
`100`, then `500` (clamped), then `450`. -/
theorem C3_wheel_clamp :
    (∀ (s : AnimationState) (d : ℚ),
        (handleWheel s d).targetX = clamp (s.targetX + d) 0 s.maxScroll)
    ∧ (handleWheel ⟨0, 0, 500, 0⟩ 100).targetX = 100
    ∧ (handleWheel (handleWheel ⟨0, 0, 500, 0⟩ 100) 600).targetX = 500
    ∧ (handleWheel (handleWheel (handleWheel ⟨0, 0, 500, 0⟩ 100) 600)
        (-50)).targetX = 450 := by
  refine ⟨fun s d => rfl, ?_, ?_, ?_⟩ <;>
    norm_num [handleWheel, min_def, max_def]

/-- C4: the `Reveal` visibility flag is monotonic. Once `isVisible` is true
it stays true under any further samples; starting from mount with threshold
`0.6`, the ratio sequence `[0.1, 0.3]` leaves it false, the third sample
`0.75` flips it to true and disconnects the observer, and a later sample of
`0.0` leaves it true. -/
theorem C4_reveal_one_shot :
    (∀ (t : ℚ) (s : RevealState) (rs : List ℚ), s.isVisible = true →
        (revealRun t s rs).isVisible = true)
    ∧ (revealRun 0.6 revealInit [0.1, 0.3]).isVisible = false
    ∧ revealRun 0.6 revealInit [0.1, 0.3, 0.75]
        = { isVisible := true, observing := false }
    ∧ (revealRun 0.6 revealInit [0.1, 0.3, 0.75, 0]).isVisible = true := by
  have heval : ∀ rs : List ℚ, revealRun 0.6 revealInit rs
      = rs.foldl (revealStep 0.6) revealInit := fun rs => rfl
  refine ⟨?_,
    by norm_num [revealRun, revealStep, revealInit, List.foldl],
    by norm_num [revealRun, revealStep, revealInit, List.foldl],
    by norm_num [revealRun, revealStep, revealInit, List.foldl]⟩
  intro t s rs
  induction rs generalizing s with
  | nil => exact fun h => h
  | cons r rs ih =>
    intro h
    have hstep : (revealStep t s r).isVisible = true := by
      unfold revealStep
      split
      · rfl
      · exact h
    exact ih (revealStep t s r) hstep

/-- C4 (witness): monotonicity applied at a concrete already-visible state
and the sample list `[0]`. -/
theorem C4_reveal_witness :
    (⟨true, false⟩ : RevealState).isVisible = true
    ∧ (revealRun 0.6 ⟨true, false⟩ [0]).isVisible = true :=
  ⟨rfl, C4_reveal_one_shot.1 0.6 ⟨true, false⟩ [0] rfl⟩

/-- C5: for a fixed target `t`, any start `c`, and easing factor
`f ∈ (0,1)`, repeated ticks of `x ↦ lerp x t f` strictly approach `t` (the
absolute distance strictly decreases while nonzero) and never overshoot (a
start below the target stays below, a start above stays above, a start at
the target stays there). -/
theorem C5_scroll_no_overshoot (c t f : ℚ) (h0 : 0 < f) (h1 : f < 1) (n : ℕ) :
    (scrollIter c t f n ≠ t →
        |t - scrollIter c t f (n + 1)| < |t - scrollIter c t f n|)
    ∧ (c < t → scrollIter c t f n < t)
    ∧ (t < c → t < scrollIter c t f n)
    ∧ (c = t → scrollIter c t f n = t) := by
  have hf : (0 : ℚ) < 1 - f := by linarith
  have hpow : (0 : ℚ) < (1 - f) ^ n := pow_pos hf n
  have hsub := scrollIter_sub c t f n
  refine ⟨?_, ?_, ?_, ?_⟩
  · intro hne
    have hd : t - scrollIter c t f n ≠ 0 := sub_ne_zero.mpr (Ne.symm hne)
    have habs : 0 < |t - scrollIter c t f n| := abs_pos.mpr hd
    have hstep : t - scrollIter c t f (n + 1)
        = (t - scrollIter c t f n) * (1 - f) := by
      rw [scrollIter_sub c t f (n + 1), hsub, pow_succ]; ring
    rw [hstep, abs_mul, abs_of_pos hf]
    have := mul_lt_mul_of_pos_left (show 1 - f < 1 by linarith) habs
    simpa using this
  · intro hlt
    have hpos : 0 < t - scrollIter c t f n := by
      rw [hsub]; exact mul_pos (by linarith) hpow
    linarith
  · intro hlt
    have hneg : t - scrollIter c t f n < 0 := by
      rw [hsub]; exact mul_neg_of_neg_of_pos (by linarith) hpow
    linarith
  · intro heq
    have hz : t - scrollIter c t f n = 0 := by
      rw [hsub, heq]; ring
    linarith

/-- C5 (witness): the theorem applied with the source's scroll factor
`0.05`, start `0`, target `500`, after `0` ticks. -/
theorem C5_scroll_witness :
    (0 : ℚ) < 0.05 ∧ (0.05 : ℚ) < 1
    ∧ ((scrollIter 0 500 0.05 0 ≠ 500 →
          |(500 : ℚ) - scrollIter 0 500 0.05 1| < |(500 : ℚ) - scrollIter 0 500 0.05 0|)
       ∧ ((0 : ℚ) < 500 → scrollIter 0 500 0.05 0 < 500)
       ∧ ((500 : ℚ) < 0 → 500 < scrollIter 0 500 0.05 0)
       ∧ ((0 : ℚ) = 500 → scrollIter 0 500 0.05 0 = 500)) :=
  ⟨by norm_num, by norm_num,
   C5_scroll_no_overshoot 0 500 0.05 (by norm_num) (by norm_num) 0⟩

/-- C6: on every tick, zoom is the pure function
`1.5 - 0.5 * min(|currentX| / (0.25 * viewportWidth), 1)` of the current
scroll position; it is `1.5` at `currentX = 0` and `1.0` for every
`currentX ≥ 0.25 * viewportWidth` (viewport width positive). -/
theorem C6_zoom_formula (c vw : ℚ) (hvw : 0 < vw) :
    zoomLevel c vw = 1.5 - 0.5 * min (|c| / (0.25 * vw)) 1
    ∧ zoomLevel 0 vw = 1.5
    ∧ (0.25 * vw ≤ c → zoomLevel c vw = 1) := by
  refine ⟨?_, ?_, ?_⟩
  · unfold zoomLevel
    rw [mul_comm vw (0.25 : ℚ)]
    ring
  · unfold zoomLevel
    norm_num
  · intro hc
    unfold zoomLevel
    have hq : (1 : ℚ) ≤ |c| / (vw * 0.25) := by
      rw [le_div_iff₀ (by positivity)]
      have habs : c ≤ |c| := le_abs_self c
      nlinarith
    rw [min_eq_right hq]
    norm_num

/-- C6 (witness): the zoom theorem applied at `currentX = 100`,
`viewportWidth = 400`. -/
theorem C6_zoom_witness :
    (0 : ℚ) < 400
    ∧ (zoomLevel 100 400 = 1.5 - 0.5 * min (|(100 : ℚ)| / (0.25 * 400)) 1
       ∧ zoomLevel 0 400 = 1.5
       ∧ ((0.25 : ℚ) * 400 ≤ 100 → zoomLevel 100 400 = 1)) :=
  ⟨by norm_num, C6_zoom_formula 100 400 (by norm_num)⟩

/-- C7: the progress-thumb update runs only when `maxScroll > 0` (the
division is never evaluated otherwise); when it runs, the thumb offset is
`clamp(currentX / maxScroll, 0, 1) * 224`, and at `currentX = 250`,
`maxScroll = 500` it is `112`. -/
theorem C7_progress_guard (c m : ℚ) :
    (m ≤ 0 → progressThumb c m = none)
    ∧ (0 < m → progressThumb c m = some (clamp (c / m) 0 1 * 224))
    ∧ progressThumb 250 500 = some 112 := by
  have hclamp : ∀ x : ℚ, min (max x 0) 1 = clamp x 0 1 := by
    intro x
    unfold clamp
    rcases le_total x 0 with h | h
    · rw [max_eq_right h, min_eq_left (zero_le_one), min_eq_left
        (h.trans zero_le_one), max_eq_left h]
    · rw [max_eq_left h]
      exact (max_eq_right (le_min h zero_le_one)).symm
  refine ⟨?_, ?_, ?_⟩
  · intro h
    unfold progressThumb
    rw [if_neg (not_lt.mpr h)]
  · intro h
    unfold progressThumb
    rw [if_pos h, hclamp]
  · unfold progressThumb
    rw [if_pos (by norm_num), hclamp]
    norm_num [clamp]

/-- C7 (witness): the guard theorem applied at `maxScroll = 0` (skipped) and
at `currentX = 250`, `maxScroll = 500`. -/
theorem C7_progress_witness :
    ((0 : ℚ) ≤ 0 ∧ progressThumb 250 0 = none)
    ∧ ((0 : ℚ) < 500
       ∧ progressThumb 250 500 = some (clamp (250 / 500) 0 1 * 224)) :=
  ⟨⟨le_refl 0, (C7_progress_guard 250 0).1 (le_refl 0)⟩,
   ⟨by norm_num, (C7_progress_guard 250 500).2.1 (by norm_num)⟩⟩

/-- C8: re-running the layout measurement changes only `maxScroll` (which
becomes `scrollWidth - viewportWidth`); `targetX`, `currentX`, and `skew`
are unchanged for every prior state. -/
theorem C8_layout_frame (s : AnimationState) (cw vw : ℚ) :
    (calculateLayout s cw vw).targetX = s.targetX
    ∧ (calculateLayout s cw vw).currentX = s.currentX
    ∧ (calculateLayout s cw vw).skew = s.skew
    ∧ (calculateLayout s cw vw).maxScroll = cw - vw :=
  ⟨rfl, rfl, rfl, rfl⟩

/-- C9 (counterexample): with cursor factor `0.15`, starting `500` px away
from a constant raw target, after `30` ticks the remaining distance is
`500 * 0.85^30 ≈ 3.82` px, NOT less than `1` px. -/
theorem C9_cursor_counterexample : ¬ |cursorIter 0 500 30 - 500| < 1 := by
  have h : (500 : ℚ) - cursorIter 0 500 30 = (500 - 0) * (1 - 0.15) ^ 30 := by
    rw [cursorIter_eq]
    exact scrollIter_sub 0 500 0.15 30
  rw [abs_sub_comm, h, abs_of_nonneg (by positivity)]
  norm_num

/-- C9 (amended): with cursor factor `0.15`, starting `500` px away from a
constant raw target, the remaining distance first drops below `1` px at tick
`39` — it is still at least `1` px after `38` ticks (and ≈ `3.82` px after
the claimed ~30). -/
theorem C9_cursor_convergence :
    |cursorIter 0 500 39 - 500| < 1 ∧ ¬ |cursorIter 0 500 38 - 500| < 1 := by
  constructor
  · have h : (500 : ℚ) - cursorIter 0 500 39 = (500 - 0) * (1 - 0.15) ^ 39 := by
      rw [cursorIter_eq]
      exact scrollIter_sub 0 500 0.15 39
    rw [abs_sub_comm, h, abs_of_nonneg (by positivity)]
    norm_num
  · have h : (500 : ℚ) - cursorIter 0 500 38 = (500 - 0) * (1 - 0.15) ^ 38 := by
      rw [cursorIter_eq]
      exact scrollIter_sub 0 500 0.15 38
    rw [abs_sub_comm, h, abs_of_nonneg (by positivity)]
    norm_num

/-- C10: if `maxScroll` is negative, every wheel event sets `targetX` to
exactly `0`, regardless of the delta: the handler computes
`max(0, min(targetX + d, maxScroll))` and `min(·, maxScroll) ≤ maxScroll < 0`. -/
theorem C10_wheel_negative_max (s : AnimationState) (d : ℚ)
    (h : s.maxScroll < 0) : (handleWheel s d).targetX = 0 := by
  show max 0 (min (s.targetX + d) s.maxScroll) = 0
  exact max_eq_left ((min_le_right _ _).trans h.le)

/-- C10 (witness): the theorem applied at `maxScroll = -100` with a positive
delta `50`. -/
theorem C10_wheel_witness :
    (⟨0, 7, -100, 0⟩ : AnimationState).maxScroll < 0
    ∧ (handleWheel ⟨0, 7, -100, 0⟩ 50).targetX = 0 :=
  ⟨by norm_num, C10_wheel_negative_max ⟨0, 7, -100, 0⟩ 50 (by norm_num)⟩

end Portfolio
